import Mathlib

/-
  Shallow embedding of the semantic-data core of the ai-slack-faq repository:
  the glossary extraction strategies, the confidence-based enhancement/merge
  pass (src/semantic_data/core.py), the Slack and glossary batch extractors
  (src/semantic_data/extractors/slack.py, glossary.py) and the SQLite store
  (src/semantic_data/store/sqlite.py).

  Python dictionaries with optional keys are modelled as structures with
  Option fields; `d.get(k, default)` becomes `field.getD default`.  The
  external generative text service is modelled as an oracle parameter: the
  structured (JSON) object it returns, or an exception, is passed in as a
  value.  Python exceptions are modelled with `Except`.
-/

namespace SemanticCore

/-- Python exceptions that the modelled code can raise or propagate. -/
inductive Exc where
  | attributeError (msg : String)
  | keyError (key : String)
  | serviceError (msg : String)
  deriving DecidableEq, Repr

/- The `SemanticType` class from src/semantic_data/__init__.py.  It defines
exactly the six string constants below.  In particular there is no `QA`
attribute: code that mentions `SemanticType.QA` (sqlite.py lines 86 and 194,
extractors/slack.py line 131) raises `AttributeError` when it is evaluated. -/
namespace SemanticType

def QnA : String := "qna"

def INSIGHT : String := "insight"

def FEEDBACK : String := "feedback"

def REFERENCE : String := "reference"

def INSTRUCTION : String := "instruction"

def GLOSSARY : String := "glossary"

end SemanticType

/-- A glossary semantic record, as built by the glossary strategies and the
enhancement pass (a Python dict with these keys).  The `source` origin
descriptor is modelled opaquely as a string encoding.  Keys that a given
producer does not set default to `[]` / `none`, matching the `.get(k, [])`
accesses performed on these dicts elsewhere in the code. -/
structure GlossaryRecord where
  type : String
  term : String
  definition : String
  term_type : String
  confidence : String
  needs_review : Bool
  alternative_definitions : List String := []
  keywords : List String := []
  domain_hints : List String := []
  source : Option String := none
  deriving DecidableEq, Repr

/-- A glossary item as it appears inside the text service's structured (JSON)
response: every key may be absent.  The empty object (all `none`) is what
`LLMClient.generate` returns after a JSON parse failure. -/
structure LLMGlossaryItem where
  term : Option String := none
  definition : Option String := none
  term_type : Option String := none
  confidence : Option String := none
  needs_review : Option Bool := none
  alternative_definitions : Option (List String) := none
  keywords : Option (List String) := none
  domain_hints : Option (List String) := none
  deriving DecidableEq, Repr

/-- The structured response object for the glossary prompts: an object that
may or may not carry a `glossary_items` array. -/
structure LLMGlossaryResult where
  glossary_items : Option (List LLMGlossaryItem) := none
  deriving DecidableEq, Repr

/-- One message of a Slack thread (only the keys the glossary path reads). -/
structure SlackMessage where
  text : Option String := none
  username : Option String := none
  deriving DecidableEq, Repr

/-- The thread dict handed to the Slack prompt templates. -/
structure SlackThreadData where
  messages : List SlackMessage := []
  channel : Option String := none
  thread_ts : Option String := none
  deriving DecidableEq, Repr

/-- Opaque encoding of the `source` dict built by
`SlackGlossaryPromptTemplate.process` (core.py lines 547-553): a
slack_thread origin with channel, thread_ts and message_count. -/
def slackGlossarySource (data : SlackThreadData) : String :=
  "slack_thread/" ++ data.channel.getD "" ++ "/" ++ data.thread_ts.getD ""
    ++ "/" ++ toString data.messages.length

/-- `SlackGlossaryPromptTemplate.process` (core.py lines 477-557), with the
service's structured response passed in as `result`.  Every item of
`result.get("glossary_items", [])` is turned into one record; every field is
read with `.get` and a default, so no item is dropped and nothing can raise. -/
def SlackGlossaryPromptTemplate.process (data : SlackThreadData)
    (result : LLMGlossaryResult) : List GlossaryRecord :=
  (result.glossary_items.getD []).map fun item =>
    { type := SemanticType.GLOSSARY
      term := item.term.getD ""
      definition := item.definition.getD ""
      term_type := item.term_type.getD "etc"
      confidence := item.confidence.getD "low"
      needs_review := item.needs_review.getD true
      keywords := item.keywords.getD []
      source := some (slackGlossarySource data) }

/-- The source-copy loop of `GlossaryEnhancementPromptTemplate.process`
(core.py lines 752-757): scan `terms_data` for the first record whose term
equals the enhanced item's term and take its source, breaking at the first
term match whether or not that record carries a source. -/
def copySource : List GlossaryRecord → String → Option String
  | [], _ => none
  | o :: rest, t => if o.term = t then o.source else copySource rest t

/-- `GlossaryEnhancementPromptTemplate.process` (core.py lines 670-761), with
the service's structured response passed in as `result`.  The prompt that is
built from `terms_data` only affects the service and is not modelled. -/
def GlossaryEnhancementPromptTemplate.process (terms_data : List GlossaryRecord)
    (result : LLMGlossaryResult) : List GlossaryRecord :=
  (result.glossary_items.getD []).map fun item =>
    { type := SemanticType.GLOSSARY
      term := item.term.getD ""
      definition := item.definition.getD ""
      term_type := item.term_type.getD "etc"
      confidence := item.confidence.getD "low"
      needs_review := item.needs_review.getD true
      alternative_definitions := item.alternative_definitions.getD []
      keywords := item.keywords.getD []
      domain_hints := item.domain_hints.getD []
      source := copySource terms_data (item.term.getD "") }

/-- The `confidence_levels` mapping of `enhance_low_confidence_terms`
(core.py line 819), with the dict's `.get(key, 0)` default. -/
def confidenceLevel (c : String) : Nat :=
  if c = "high" then 3 else if c = "medium" then 2 else if c = "low" then 1 else 0

/-- Python's `<` on strings: lexicographic comparison of the code-point
sequences, a proper prefix being smaller. -/
def pyStrLtAux : List Char → List Char → Bool
  | [], [] => false
  | [], _ :: _ => true
  | _ :: _, [] => false
  | a :: as, b :: bs =>
    if a.toNat < b.toNat then true
    else if b.toNat < a.toNat then false
    else pyStrLtAux as bs

/-- Python's `<` on strings. -/
def pyStrLt (a b : String) : Bool := pyStrLtAux a.toList b.toList

/-- Python's `<=` on strings: `a < b` or `a == b`. -/
def pyStrLe (a b : String) : Bool := pyStrLt a b || a == b

/-- The `low_confidence_items` filter of `enhance_low_confidence_terms`
(core.py lines 784-787):
`item.get("confidence") in ["low","medium"] and item.get("confidence") <= confidence_threshold`.
The `<=` is Python string comparison, i.e. lexicographic by code point. -/
def lowConfidenceItems (glossary_items : List GlossaryRecord)
    (confidence_threshold : String) : List GlossaryRecord :=
  glossary_items.filter fun item =>
    (item.confidence = "low" || item.confidence = "medium")
      && pyStrLe item.confidence confidence_threshold

/-- The `high_confidence_items` filter of `enhance_low_confidence_terms`
(core.py lines 790-793):
`item.get("confidence") not in ["low","medium"] or item.get("confidence") > confidence_threshold`. -/
def highConfidenceItems (glossary_items : List GlossaryRecord)
    (confidence_threshold : String) : List GlossaryRecord :=
  glossary_items.filter fun item =>
    !(item.confidence = "low" || item.confidence = "medium")
      || pyStrLt confidence_threshold item.confidence

/-- The body of the merge loop of `enhance_low_confidence_terms` (core.py
lines 806-824) for one enhanced item: find the first existing item with the
same term; if found, replace it only when the enhanced confidence level is
strictly greater; `none` means no existing item matched. -/
def mergeInto (e : GlossaryRecord) : List GlossaryRecord → Option (List GlossaryRecord)
  | [] => none
  | item :: rest =>
    if item.term = e.term then
      some (if confidenceLevel item.confidence < confidenceLevel e.confidence
            then e :: rest else item :: rest)
    else (mergeInto e rest).map (item :: ·)

/-- One iteration of the merge loop: replace in place when a term match
exists, otherwise append the enhanced item. -/
def mergeStep (result_items : List GlossaryRecord) (e : GlossaryRecord) :
    List GlossaryRecord :=
  match mergeInto e result_items with
  | some updated => updated
  | none => result_items ++ [e]

/-- `enhance_low_confidence_terms` (core.py lines 765-826), with the service's
structured response for the one enhancement call passed in as `resp`.  The
second component counts the calls made to the text service (0 when the
low-confidence filter is empty and the input is returned unchanged, 1 when
`GlossaryEnhancementPromptTemplate.process` runs). -/
def enhance_low_confidence_terms (glossary_items : List GlossaryRecord)
    (confidence_threshold : String) (resp : LLMGlossaryResult) :
    List GlossaryRecord × Nat :=
  let low := lowConfidenceItems glossary_items confidence_threshold
  let high := highConfidenceItems glossary_items confidence_threshold
  if low.isEmpty then (glossary_items, 0)
  else
    let enhanced := GlossaryEnhancementPromptTemplate.process low resp
    (enhanced.foldl mergeStep high, 1)

/-- The structured response for the Slack QnA prompt of
`SlackQnAPromptTemplate.process` (core.py lines 120-128); every key may be
absent, the empty object (all `none`) being what `LLMClient.generate`
returns after a JSON parse failure. -/
structure QnAResponse where
  is_valuable : Option Bool := none
  question : Option String := none
  answer : Option String := none
  keywords : Option (List String) := none
  deriving DecidableEq, Repr

/-- A qna record as built by `SlackQnAPromptTemplate.process` (core.py lines
138-150).  The `source` dict is modelled opaquely. -/
structure QnARecord where
  type : String
  question : String
  answer : String
  keywords : List String
  source : String
  deriving DecidableEq, Repr

/-- Opaque encoding of the `source` dict of core.py lines 143-149: channel,
thread_ts, and the usernames of the first two messages (default "Unknown"). -/
def slackQnASource (data : SlackThreadData) : String :=
  "slack_thread/" ++ data.channel.getD "" ++ "/" ++ data.thread_ts.getD "" ++ "/"
    ++ (((data.messages.get? 0).bind (fun m => m.username)).getD "Unknown") ++ "/"
    ++ (((data.messages.get? 1).bind (fun m => m.username)).getD "Unknown")

/-- `SlackQnAPromptTemplate.process` (core.py lines 96-150) with the service's
structured response passed in as `result`.  Fewer than two messages short-
circuits to `[]`.  A falsy `result.get("is_valuable", False)` returns `[]`.
Otherwise the record literal reads `result["question"]`, `result["answer"]`
and `result["keywords"]` by direct subscript, in that order, and a missing
key raises `KeyError`, which no handler catches. -/
def SlackQnAPromptTemplate.process (data : SlackThreadData)
    (result : QnAResponse) : Except Exc (List QnARecord) :=
  if data.messages.length < 2 then .ok []
  else if !(result.is_valuable.getD false) then .ok []
  else
    match result.question with
    | none => .error (.keyError "question")
    | some q =>
      match result.answer with
      | none => .error (.keyError "answer")
      | some a =>
        match result.keywords with
        | none => .error (.keyError "keywords")
        | some ks =>
          .ok [{ type := SemanticType.QnA, question := q, answer := a,
                 keywords := ks, source := slackQnASource data }]

/-- A Slack thread item as consumed by `SlackExtractor.extract`
(extractors/slack.py): a dict whose `question`/`answer` keys may be absent,
plus the origin fields read by `_extract_insights`. -/
structure QAThreadData where
  question : Option String := none
  answer : Option String := none
  channel : Option String := none
  timestamp : Option String := none
  questioner : Option String := none
  answerer : Option String := none
  deriving DecidableEq, Repr

/-- One item of the `insights` array in the structured response parsed by
`SlackExtractor._extract_insights` (slack.py lines 194-220). -/
structure InsightItem where
  type : Option String := none
  content : Option String := none
  keywords : Option (List String) := none
  reference_type : Option String := none
  deriving DecidableEq, Repr

/-- The structured response parsed by `SlackExtractor._extract_insights`. -/
structure InsightsResponse where
  insights : Option (List InsightItem) := none
  deriving DecidableEq, Repr

/-- A record emitted by `SlackExtractor` (insight/feedback/reference shape);
`reference_type` is `none` when that key is absent. -/
structure SlackRecord where
  type : String
  content : String
  keywords : List String
  reference_type : Option String := none
  source : String
  deriving DecidableEq, Repr

/-- Opaque encoding of the `source` dict of slack.py lines 211-215. -/
def slackInsightSource (thread : QAThreadData) : String :=
  "slack_thread/" ++ thread.channel.getD "" ++ "/" ++ thread.timestamp.getD ""

/-- `SlackExtractor._extract_qa` (slack.py lines 86-145).  `qaResponse` is
the outcome of the service call: `.error e` when the call itself raised
(the try block only starts afterwards, so this propagates), `.ok none` when
the returned text failed `json.loads` (JSONDecodeError is caught: returns
None), `.ok (some parsed)` otherwise.  A falsy `is_valuable` returns None.
Otherwise the record literal of lines 130-142 is evaluated; its first entry
reads `SemanticType.QA`, an attribute that does not exist, and the resulting
AttributeError is not among the caught classes (JSONDecodeError, KeyError),
so it propagates and no valuable Q&A record is ever built. -/
def SlackExtractor.extractQa (qaResponse : Except Exc (Option QnAResponse)) :
    Except Exc (Option SlackRecord) :=
  match qaResponse with
  | .error e => .error e
  | .ok none => .ok none
  | .ok (some parsed) =>
    if !(parsed.is_valuable.getD false) then .ok none
    else .error (.attributeError "type object SemanticType has no attribute QA")

/-- One record of `SlackExtractor._extract_insights` (slack.py 194-222). -/
def insightRecord (thread : QAThreadData) (item : InsightItem) : SlackRecord :=
  let insight_type := (item.type.getD "").toLower
  let semantic_type :=
    if insight_type = "insight" then SemanticType.INSIGHT
    else if insight_type = "feedback" then SemanticType.FEEDBACK
    else if insight_type = "reference" then SemanticType.REFERENCE
    else SemanticType.INSIGHT
  { type := semantic_type
    content := item.content.getD ""
    keywords := item.keywords.getD []
    reference_type :=
      if semantic_type = SemanticType.REFERENCE then item.reference_type else none
    source := slackInsightSource thread }

/-- `SlackExtractor._extract_insights` (slack.py lines 147-227): a raising
service call propagates; a JSON parse failure is caught and yields `[]`; a
parsed response contributes one record per item, all fields read with
defaulted `.get`, so nothing else can raise. -/
def SlackExtractor.extractInsights (thread : QAThreadData)
    (insResponse : Except Exc (Option InsightsResponse)) :
    Except Exc (List SlackRecord) :=
  match insResponse with
  | .error e => .error e
  | .ok none => .ok []
  | .ok (some parsed) =>
    .ok ((parsed.insights.getD []).map (insightRecord thread))

/-- The for-loop of `SlackExtractor.extract` (slack.py lines 65-78) with item
index `i`, accumulated records and the accumulated trace of
`progress_callback` invocations (the callback itself is assumed not to
raise).  `qaResp i` / `insResp i` are the outcomes of the service calls for
item `i`; the Q&A branch only runs when both the `question` and `answer`
keys are present.  There is no try/except in `extract`: any exception from
the per-item work propagates and aborts the whole loop. -/
def SlackExtractor.extractLoop (total : Nat)
    (qaResp : Nat → Except Exc (Option QnAResponse))
    (insResp : Nat → Except Exc (Option InsightsResponse)) :
    Nat → List QAThreadData → List SlackRecord → List (Nat × Nat) →
    Except Exc (List SlackRecord × List (Nat × Nat))
  | _, [], acc, trace => .ok (acc, trace ++ [(total, total)])
  | i, thread :: rest, acc, trace =>
    let trace' := trace ++ [(i, total)]
    let qaStep : Except Exc (Option SlackRecord) :=
      if thread.question.isSome && thread.answer.isSome
      then SlackExtractor.extractQa (qaResp i) else .ok none
    match qaStep with
    | .error e => .error e
    | .ok qa =>
      let acc' := acc ++ (match qa with | some r => [r] | none => [])
      match SlackExtractor.extractInsights thread (insResp i) with
      | .error e => .error e
      | .ok ins =>
        SlackExtractor.extractLoop total qaResp insResp (i + 1) rest (acc' ++ ins) trace'

/-- `SlackExtractor.extract` (slack.py lines 51-84): the loop above followed
by the final `progress_callback(total, total)` (appended by the base case of
the loop). -/
def SlackExtractor.extract (raw_data : List QAThreadData)
    (qaResp : Nat → Except Exc (Option QnAResponse))
    (insResp : Nat → Except Exc (Option InsightsResponse)) :
    Except Exc (List SlackRecord × List (Nat × Nat)) :=
  SlackExtractor.extractLoop raw_data.length qaResp insResp 0 raw_data [] []

/-- The thread loop of `GlossaryExtractor.extract` for the branch where
`raw_data["messages"]` is a dict of threads (glossary.py lines 76-88): a
`(i, total)` callback before each thread, the Slack glossary template run on
`{"messages": thread}` (so `channel` and `thread_ts` are absent), and after
the whole function one callback with `(1, 1)` (glossary.py line 118).
`resp i` is the structured response of the service call for thread `i`
(`.error` when the call raised, which propagates: there is no try/except). -/
def GlossaryExtractor.extractThreadsLoop (total : Nat)
    (resp : Nat → Except Exc LLMGlossaryResult) :
    Nat → List (List SlackMessage) → List GlossaryRecord → List (Nat × Nat) →
    Except Exc (List GlossaryRecord × List (Nat × Nat))
  | _, [], acc, trace => .ok (acc, trace ++ [(1, 1)])
  | i, thread :: rest, acc, trace =>
    let trace' := trace ++ [(i, total)]
    match resp i with
    | .error e => .error e
    | .ok r =>
      let results := SlackGlossaryPromptTemplate.process { messages := thread } r
      GlossaryExtractor.extractThreadsLoop total resp (i + 1) rest (acc ++ results) trace'

/-- `GlossaryExtractor.extract` (glossary.py lines 53-120) on a dict of
threads. -/
def GlossaryExtractor.extractThreads (threads : List (List SlackMessage))
    (resp : Nat → Except Exc LLMGlossaryResult) :
    Except Exc (List GlossaryRecord × List (Nat × Nat)) :=
  GlossaryExtractor.extractThreadsLoop threads.length resp 0 threads [] []

/-- A record as passed to `SQLiteStore.store` (the keys the store reads). -/
structure StoreRecord where
  type : String := ""
  question : Option String := none
  answer : Option String := none
  content : Option String := none
  reference_type : Option String := none
  keywords : List String := []
  source : Option String := none
  deriving DecidableEq, Repr

/-- `SQLiteStore.store` (sqlite.py lines 61-119).  For each record the loop
body evaluates `type_value == SemanticType.QA` (line 86); the SemanticType
class (semantic_data/__init__.py) defines QnA, INSIGHT, FEEDBACK, REFERENCE,
INSTRUCTION and GLOSSARY but no QA, so this attribute lookup raises
AttributeError on the first record, before any INSERT is executed, and the
exception propagates to the caller.  An empty list skips the loop and
commits nothing.  Consequently no record — in particular no row or keyword
index entry — is ever persisted. -/
def SQLiteStore.store (semantic_data : List StoreRecord) : Except Exc Unit :=
  match semantic_data with
  | [] => .ok ()
  | _ :: _ => .error (.attributeError "type object SemanticType has no attribute QA")

/-
  Specification-side definitions: expected outputs used to state the
  theorems below.  They are written from the spec's description of the
  intended behaviour, to be compared with the embedded code.
-/

/-- Specification function: the records the Slack extract loop returns from
item index `i` on when every service call returns normally and no valuable
Q&A record is constructed — each item contributes exactly its insight
records (an unparseable insights response contributing `[]`). -/
def expectedInsightRecords (insResp : Nat → Except Exc (Option InsightsResponse)) :
    Nat → List QAThreadData → List SlackRecord
  | _, [] => []
  | i, thread :: rest =>
    (match SlackExtractor.extractInsights thread (insResp i) with
     | .ok l => l
     | .error _ => [])
      ++ expectedInsightRecords insResp (i + 1) rest

/-- Specification function: the records the glossary thread loop returns
from thread index `i` on when every service call returns normally. -/
def expectedGlossaryRecords (resp : Nat → Except Exc LLMGlossaryResult) :
    Nat → List (List SlackMessage) → List GlossaryRecord
  | _, [] => []
  | i, thread :: rest =>
    (match resp i with
     | .ok r => SlackGlossaryPromptTemplate.process { messages := thread } r
     | .error _ => [])
      ++ expectedGlossaryRecords resp (i + 1) rest

/-- Specification function: the per-item `(index, total)` progress-callback
invocations for `n` items starting at index `i`. -/
def expectedProgressCalls (total : Nat) : Nat → Nat → List (Nat × Nat)
  | _, 0 => []
  | i, n + 1 => (i, total) :: expectedProgressCalls total (i + 1) n

/-- Specification relation: the record `y` standing where `x` stood is
either `x` itself or a record for the same term whose confidence level is
strictly higher. -/
def recordUpgrade (x y : GlossaryRecord) : Prop :=
  y = x ∨ (y.term = x.term ∧
    confidenceLevel x.confidence < confidenceLevel y.confidence)

/-
  Order-theoretic facts about Python string comparison, needed to relate the
  two complementary filters of `enhance_low_confidence_terms`.
-/

theorem pyStrLtAux_self : ∀ as : List Char, pyStrLtAux as as = false := by
  intro as
  induction as with
  | nil => rfl
  | cons a as ih => simp [pyStrLtAux, ih]

theorem pyStrLtAux_asymm : ∀ as bs, pyStrLtAux as bs = true → pyStrLtAux bs as = false := by
  intro as
  induction as with
  | nil => intro bs h; cases bs <;> simp_all [pyStrLtAux]
  | cons a as ih =>
    intro bs h
    cases bs with
    | nil => simp_all [pyStrLtAux]
    | cons b bs =>
      simp only [pyStrLtAux] at h ⊢
      rcases Nat.lt_trichotomy a.toNat b.toNat with hlt | heq | hgt
      · simp only [hlt, if_pos]
        simp [Nat.not_lt.mpr (Nat.le_of_lt hlt), Nat.lt_irrefl, Nat.lt_asymm hlt]
      · rw [heq] at h ⊢
        simp only [lt_self_iff_false, if_false] at h ⊢
        exact ih bs h
      · simp [Nat.not_lt.mpr (Nat.le_of_lt hgt), hgt] at h

theorem pyStrLtAux_total : ∀ as bs, pyStrLtAux as bs = false → as ≠ bs →
    pyStrLtAux bs as = true := by
  intro as
  induction as with
  | nil => intro bs h hne; cases bs <;> simp_all [pyStrLtAux]
  | cons a as ih =>
    intro bs h hne
    cases bs with
    | nil => simp [pyStrLtAux]
    | cons b bs =>
      simp only [pyStrLtAux] at h ⊢
      rcases Nat.lt_trichotomy a.toNat b.toNat with hlt | heq | hgt
      · simp [hlt] at h
      · have hab : a = b := Char.eq_of_val_eq (UInt32.ext heq)
        subst hab
        simp only [Nat.lt_irrefl, if_false] at h ⊢
        exact ih bs h (fun hc => hne (by rw [hc]))
      · simp [hgt]

theorem string_eq_of_toList_eq {a b : String} (h : a.toList = b.toList) : a = b :=
  String.ext h

theorem pyStrLe_false_lt {a b : String} (h : pyStrLe a b = false) :
    pyStrLt b a = true := by
  unfold pyStrLe at h
  rw [Bool.or_eq_false_iff] at h
  obtain ⟨h1, h2⟩ := h
  unfold pyStrLt at h1 ⊢
  apply pyStrLtAux_total _ _ h1
  intro hc
  have : a = b := string_eq_of_toList_eq hc
  subst this
  simp at h2

/-
  The two filters of `enhance_low_confidence_terms` are exact complements:
  when the low-confidence filter is empty the high-confidence filter keeps
  every record, which is the return-input-unchanged branch.
-/

theorem highPred_of_lowPred_false (x : GlossaryRecord) (t : String)
    (h : ((x.confidence = "low" || x.confidence = "medium")
        && pyStrLe x.confidence t) = false) :
    (!(x.confidence = "low" || x.confidence = "medium")
        || pyStrLt t x.confidence) = true := by
  rw [Bool.and_eq_false_iff] at h
  rcases h with h | h
  · simp [h]
  · simp [pyStrLe_false_lt h]

theorem high_eq_self_of_low_empty (items : List GlossaryRecord) (t : String)
    (h : lowConfidenceItems items t = []) :
    highConfidenceItems items t = items := by
  unfold lowConfidenceItems at h
  unfold highConfidenceItems
  rw [List.filter_eq_nil_iff] at h
  apply List.filter_eq_self.mpr
  intro x hx
  exact highPred_of_lowPred_false x t (by simpa using h x hx)

/-
  Facts about the merge loop of `enhance_low_confidence_terms`.
-/

theorem recordUpgrade_refl (x : GlossaryRecord) : recordUpgrade x x :=
  Or.inl rfl

theorem recordUpgrade_trans {x y z : GlossaryRecord}
    (hxy : recordUpgrade x y) (hyz : recordUpgrade y z) : recordUpgrade x z := by
  rcases hxy with rfl | ⟨ht, hc⟩
  · exact hyz
  · rcases hyz with rfl | ⟨ht', hc'⟩
    · exact Or.inr ⟨ht, hc⟩
    · exact Or.inr ⟨ht'.trans ht, hc.trans hc'⟩

theorem mergeInto_length (e : GlossaryRecord) :
    ∀ l l', mergeInto e l = some l' → l'.length = l.length := by
  intro l
  induction l with
  | nil => intro l' h; exact Option.noConfusion h
  | cons item rest ih =>
    intro l' h
    simp only [mergeInto] at h
    split at h
    · split at h <;> (cases h; simp)
    · cases hrec : mergeInto e rest with
      | none => rw [hrec] at h; simp at h
      | some r' =>
        rw [hrec] at h
        simp only [Option.map_some'] at h
        cases h
        simp [ih r' hrec]

theorem mergeInto_get (e : GlossaryRecord) :
    ∀ l l', mergeInto e l = some l' →
    ∀ i (h : i < l.length) (h' : i < l'.length),
      recordUpgrade (l.get ⟨i, h⟩) (l'.get ⟨i, h'⟩) := by
  intro l
  induction l with
  | nil => intro l' h; exact Option.noConfusion h
  | cons item rest ih =>
    intro l' hl i hi hi'
    simp only [mergeInto] at hl
    split at hl
    · rename_i hterm
      split at hl
      · rename_i hlvl
        cases hl
        cases i with
        | zero => exact Or.inr ⟨hterm.symm, hlvl⟩
        | succ j => exact recordUpgrade_refl _
      · cases hl
        exact recordUpgrade_refl _
    · cases hrec : mergeInto e rest with
      | none => rw [hrec] at hl; simp at hl
      | some r' =>
        rw [hrec] at hl
        simp only [Option.map_some'] at hl
        cases hl
        cases i with
        | zero => exact recordUpgrade_refl _
        | succ j =>
          exact ih r' hrec j (Nat.lt_of_succ_lt_succ hi) (Nat.lt_of_succ_lt_succ hi')

theorem mergeInto_mem (e : GlossaryRecord) :
    ∀ l l', mergeInto e l = some l' → ∀ r ∈ l', r ∈ l ∨ r = e := by
  intro l
  induction l with
  | nil => intro l' h; exact Option.noConfusion h
  | cons item rest ih =>
    intro l' hl r hr
    simp only [mergeInto] at hl
    split at hl
    · split at hl <;> cases hl <;> rcases List.mem_cons.mp hr with rfl | hm
      · exact Or.inr rfl
      · exact Or.inl (List.mem_cons_of_mem _ hm)
      · exact Or.inl (List.mem_cons_self _ _)
      · exact Or.inl (List.mem_cons_of_mem _ hm)
    · cases hrec : mergeInto e rest with
      | none => rw [hrec] at hl; simp at hl
      | some r' =>
        rw [hrec] at hl
        simp only [Option.map_some'] at hl
        cases hl
        rcases List.mem_cons.mp hr with rfl | hm
        · exact Or.inl (List.mem_cons_self _ _)
        · rcases ih r' hrec r hm with h | h
          · exact Or.inl (List.mem_cons_of_mem _ h)
          · exact Or.inr h

theorem mergeStep_length (res : List GlossaryRecord) (e : GlossaryRecord) :
    res.length ≤ (mergeStep res e).length := by
  unfold mergeStep
  cases h : mergeInto e res with
  | none => simp
  | some updated => simp [mergeInto_length e res updated h]

theorem mergeStep_get (res : List GlossaryRecord) (e : GlossaryRecord)
    (i : Nat) (h : i < res.length) :
    ∀ h' : i < (mergeStep res e).length,
    recordUpgrade (res.get ⟨i, h⟩) ((mergeStep res e).get ⟨i, h'⟩) := by
  cases hm : mergeInto e res with
  | none =>
    have heq : mergeStep res e = res ++ [e] := by simp [mergeStep, hm]
    rw [heq]
    intro h'
    have hg : (res ++ [e]).get ⟨i, h'⟩ = res.get ⟨i, h⟩ := by
      simp [List.getElem_append, h]
    rw [hg]
    exact recordUpgrade_refl _
  | some updated =>
    have heq : mergeStep res e = updated := by simp [mergeStep, hm]
    rw [heq]
    intro h'
    exact mergeInto_get e res updated hm i h h'

theorem mergeStep_mem (res : List GlossaryRecord) (e : GlossaryRecord) :
    ∀ r ∈ mergeStep res e, r ∈ res ∨ r = e := by
  unfold mergeStep
  cases hm : mergeInto e res with
  | none =>
    intro r hr
    rcases List.mem_append.mp hr with h | h
    · exact Or.inl h
    · exact Or.inr (List.mem_singleton.mp h)
  | some updated => exact mergeInto_mem e res updated hm

theorem foldl_mergeStep_length (es : List GlossaryRecord) :
    ∀ res : List GlossaryRecord, res.length ≤ (es.foldl mergeStep res).length := by
  induction es with
  | nil => intro res; simp
  | cons e es ih =>
    intro res
    calc res.length ≤ (mergeStep res e).length := mergeStep_length res e
      _ ≤ _ := ih (mergeStep res e)

theorem foldl_mergeStep_get (es : List GlossaryRecord) :
    ∀ (res : List GlossaryRecord) (i : Nat) (h : i < res.length)
      (h' : i < (es.foldl mergeStep res).length),
      recordUpgrade (res.get ⟨i, h⟩) ((es.foldl mergeStep res).get ⟨i, h'⟩) := by
  induction es with
  | nil => intro res i h h'; exact recordUpgrade_refl _
  | cons e es ih =>
    intro res i h h'
    have h1 : i < (mergeStep res e).length := Nat.lt_of_lt_of_le h (mergeStep_length res e)
    exact recordUpgrade_trans (mergeStep_get res e i h h1)
      (ih (mergeStep res e) i h1 h')

theorem foldl_mergeStep_mem (es : List GlossaryRecord) :
    ∀ res, ∀ r ∈ es.foldl mergeStep res, r ∈ res ∨ r ∈ es := by
  induction es with
  | nil => intro res r hr; exact Or.inl hr
  | cons e es ih =>
    intro res r hr
    rcases ih (mergeStep res e) r hr with h | h
    · rcases mergeStep_mem res e r h with h' | h'
      · exact Or.inl h'
      · exact Or.inr (h' ▸ List.mem_cons_self _ _)
    · exact Or.inr (List.mem_cons_of_mem _ h)

/-
  Behaviour of the batch extractors when every service call returns
  normally.
-/

theorem slackExtractLoop_spec (total : Nat)
    (qaResp : Nat → Except Exc (Option QnAResponse))
    (insResp : Nat → Except Exc (Option InsightsResponse))
    (hqa : ∀ j, ∃ v, qaResp j = .ok v ∧
      ∀ p, v = some p → p.is_valuable.getD false = false)
    (hins : ∀ j, ∃ v, insResp j = .ok v) :
    ∀ (items : List QAThreadData) (i : Nat) (acc : List SlackRecord)
      (trace : List (Nat × Nat)),
      SlackExtractor.extractLoop total qaResp insResp i items acc trace =
        .ok (acc ++ expectedInsightRecords insResp i items,
             trace ++ expectedProgressCalls total i items.length ++ [(total, total)]) := by
  intro items
  induction items with
  | nil =>
    intro i acc trace
    simp [SlackExtractor.extractLoop, expectedInsightRecords, expectedProgressCalls]
  | cons thread rest ih =>
    intro i acc trace
    obtain ⟨v, hv, hval⟩ := hqa i
    have hqaStep : (if thread.question.isSome && thread.answer.isSome
        then SlackExtractor.extractQa (qaResp i)
        else Except.ok none) = (Except.ok none : Except Exc (Option SlackRecord)) := by
      split
      · rw [hv]
        cases v with
        | none => rfl
        | some p =>
          have hp := hval p rfl
          simp [SlackExtractor.extractQa, hp]
      · rfl
    obtain ⟨w, hw⟩ := hins i
    have hL : ∃ L, SlackExtractor.extractInsights thread (insResp i) = .ok L := by
      rw [hw]
      cases w with
      | none => exact ⟨[], rfl⟩
      | some parsed => exact ⟨_, rfl⟩
    obtain ⟨L, hL⟩ := hL
    simp only [SlackExtractor.extractLoop, hqaStep, hL, ih,
      expectedInsightRecords, expectedProgressCalls]
    simp [List.append_assoc]

theorem glossaryExtractLoop_spec (total : Nat)
    (resp : Nat → Except Exc LLMGlossaryResult)
    (hresp : ∀ j, ∃ v, resp j = .ok v) :
    ∀ (threads : List (List SlackMessage)) (i : Nat) (acc : List GlossaryRecord)
      (trace : List (Nat × Nat)),
      GlossaryExtractor.extractThreadsLoop total resp i threads acc trace =
        .ok (acc ++ expectedGlossaryRecords resp i threads,
             trace ++ expectedProgressCalls total i threads.length ++ [(1, 1)]) := by
  intro threads
  induction threads with
  | nil =>
    intro i acc trace
    simp [GlossaryExtractor.extractThreadsLoop, expectedGlossaryRecords,
      expectedProgressCalls]
  | cons thread rest ih =>
    intro i acc trace
    obtain ⟨v, hv⟩ := hresp i
    simp only [GlossaryExtractor.extractThreadsLoop, hv, ih,
      expectedGlossaryRecords, expectedProgressCalls]
    simp [List.append_assoc]

/-
  The source-copy loop is first-match search.
-/

theorem copySource_eq_find (l : List GlossaryRecord) (t : String) :
    copySource l t = (l.find? (fun o => o.term == t)).bind (fun o => o.source) := by
  induction l with
  | nil => rfl
  | cons o rest ih =>
    by_cases h : o.term = t
    · simp [copySource, h]
    · simp [copySource, h, ih]

/-
  Claim theorems.
-/

/-- C1: the store/retrieve round-trip cannot hold — `SQLiteStore.store`
raises AttributeError on every non-empty record list, because the loop body
compares the record type against `SemanticType.QA`, an attribute the
SemanticType class does not define (it defines `QnA`).  `store(records)`
therefore never persists anything, so `retrieve` can never return the
stored records (with or without a case-mismatched keyword filter). -/
theorem C1_store_always_raises (r : StoreRecord) (rs : List StoreRecord) :
    SQLiteStore.store (r :: rs) =
      .error (.attributeError "type object SemanticType has no attribute QA") := rfl

/-- C2 counterexample: the claim fails on the code.  With threshold "high",
a record of confidence "low" lands in the trusted subset and the reviewed
subset is empty, because the code compares the confidence *strings*
with Python `<=` (lexicographically "low" ≤ "high" is false), although
under the claimed ordinal ordering its level 1 is ≤ level 3; and with
threshold "medium", a record of confidence "high" with `needs_review = true`
is also trusted — the filters never consult `needs_review`. -/
theorem C2_counterexample :
    lowConfidenceItems
      [{ type := "glossary", term := "X", definition := "d",
         term_type := "etc", confidence := "low", needs_review := false }] "high" = [] ∧
    highConfidenceItems
      [{ type := "glossary", term := "X", definition := "d",
         term_type := "etc", confidence := "low", needs_review := false }] "high" =
      [{ type := "glossary", term := "X", definition := "d",
         term_type := "etc", confidence := "low", needs_review := false }] ∧
    confidenceLevel "low" ≤ confidenceLevel "high" ∧
    lowConfidenceItems
      [{ type := "glossary", term := "Y", definition := "d",
         term_type := "etc", confidence := "high", needs_review := true }] "medium" = [] ∧
    highConfidenceItems
      [{ type := "glossary", term := "Y", definition := "d",
         term_type := "etc", confidence := "high", needs_review := true }] "medium" =
      [{ type := "glossary", term := "Y", definition := "d",
         term_type := "etc", confidence := "high", needs_review := true }] := by
  refine ⟨by decide, by decide, by decide, by decide, by decide⟩

/-- C2 (amended): `enhance_low_confidence_terms` sends a record to the
reviewed subset iff its confidence string is "low" or "medium" AND that
string is ≤ the threshold in Python's lexicographic string order (under
which "high" < "low" < "medium").  For thresholds "low" and "medium" this
coincides with the ordinal rule restricted to low/medium records, but for
threshold "high" the reviewed subset is empty.  The trusted subset is the
exact complement, and `needs_review` plays no role in either filter. -/
theorem C2_partition_lexicographic (items : List GlossaryRecord)
    (t : String) (x : GlossaryRecord)
    (ht : t = "low" ∨ t = "medium" ∨ t = "high")
    (hx : x.confidence = "low" ∨ x.confidence = "medium" ∨ x.confidence = "high") :
    (x ∈ lowConfidenceItems items t ↔
      x ∈ items ∧ (x.confidence = "low" ∨ x.confidence = "medium") ∧
        t ≠ "high" ∧ confidenceLevel x.confidence ≤ confidenceLevel t) ∧
    (x ∈ highConfidenceItems items t ↔
      x ∈ items ∧ ¬((x.confidence = "low" ∨ x.confidence = "medium") ∧
        t ≠ "high" ∧ confidenceLevel x.confidence ≤ confidenceLevel t)) := by
  have e1 : pyStrLe "low" "low" = true := by decide
  have e2 : pyStrLe "low" "medium" = true := by decide
  have e3 : pyStrLe "low" "high" = false := by decide
  have e4 : pyStrLe "medium" "low" = false := by decide
  have e5 : pyStrLe "medium" "medium" = true := by decide
  have e6 : pyStrLe "medium" "high" = false := by decide
  have f1 : pyStrLt "low" "low" = false := by decide
  have f2 : pyStrLt "low" "medium" = true := by decide
  have f3 : pyStrLt "low" "high" = false := by decide
  have f4 : pyStrLt "medium" "low" = false := by decide
  have f5 : pyStrLt "medium" "medium" = false := by decide
  have f6 : pyStrLt "medium" "high" = false := by decide
  have f7 : pyStrLt "high" "low" = true := by decide
  have f8 : pyStrLt "high" "medium" = true := by decide
  have f9 : pyStrLt "high" "high" = false := by decide
  unfold lowConfidenceItems highConfidenceItems
  rcases ht with rfl | rfl | rfl <;> rcases hx with hc | hc | hc <;>
    simp [List.mem_filter, hc, confidenceLevel,
      e1, e2, e3, e4, e5, e6, f1, f2, f3, f4, f5, f6, f7, f8, f9]

/-- Witness for C2 (amended): with threshold "medium", a low-confidence
record of a singleton list is in the reviewed subset. -/
theorem C2_partition_lexicographic_witness :
    ({ type := "glossary", term := "X", definition := "d", term_type := "etc",
       confidence := "low", needs_review := false } : GlossaryRecord) ∈
      lowConfidenceItems
        [{ type := "glossary", term := "X", definition := "d", term_type := "etc",
           confidence := "low", needs_review := false }] "medium" :=
  (C2_partition_lexicographic
      [{ type := "glossary", term := "X", definition := "d", term_type := "etc",
         confidence := "low", needs_review := false }] "medium"
      { type := "glossary", term := "X", definition := "d", term_type := "etc",
        confidence := "low", needs_review := false }
      (Or.inr (Or.inl rfl)) (Or.inl rfl)).1.mpr
    ⟨by decide, Or.inl rfl, by decide, by decide⟩

/-- C3 counterexample: the claim fails on the code.  When the service
returns a glossary item with confidence "low" and `needs_review: false`,
both the Slack glossary strategy and the enhancement pass emit a record
with confidence "low" and `needs_review = false` — neither enforces the
invariant. -/
theorem C3_counterexample :
    (SlackGlossaryPromptTemplate.process {}
        { glossary_items :=
            some [{ term := some "ASAP", confidence := some "low",
                    needs_review := some false }] }).map
      (fun r => (r.confidence, r.needs_review)) = [("low", false)] ∧
    (GlossaryEnhancementPromptTemplate.process []
        { glossary_items :=
            some [{ term := some "ASAP", confidence := some "low",
                    needs_review := some false }] }).map
      (fun r => (r.confidence, r.needs_review)) = [("low", false)] :=
  ⟨rfl, rfl⟩

/-- C3 (amended): the strategy and the enhancement pass copy `needs_review`
verbatim from the service response, defaulting to true only when the key is
absent; there is no code-side enforcement tied to confidence.  Hence an
emitted record has `needs_review = false` only when the service explicitly
returned `needs_review: false` for it. -/
theorem C3_needs_review_passthrough (data : SlackThreadData)
    (terms_data : List GlossaryRecord) (result : LLMGlossaryResult)
    (r : GlossaryRecord) :
    (r ∈ SlackGlossaryPromptTemplate.process data result →
      r.needs_review = false →
      ∃ item ∈ result.glossary_items.getD [], item.needs_review = some false) ∧
    (r ∈ GlossaryEnhancementPromptTemplate.process terms_data result →
      r.needs_review = false →
      ∃ item ∈ result.glossary_items.getD [], item.needs_review = some false) := by
  constructor
  · intro hr hnr
    unfold SlackGlossaryPromptTemplate.process at hr
    obtain ⟨item, hitem, rfl⟩ := List.mem_map.mp hr
    refine ⟨item, hitem, ?_⟩
    cases hni : item.needs_review with
    | none => simp [hni] at hnr
    | some b =>
      cases b with
      | true => simp [hni] at hnr
      | false => rfl
  · intro hr hnr
    unfold GlossaryEnhancementPromptTemplate.process at hr
    obtain ⟨item, hitem, rfl⟩ := List.mem_map.mp hr
    refine ⟨item, hitem, ?_⟩
    cases hni : item.needs_review with
    | none => simp [hni] at hnr
    | some b =>
      cases b with
      | true => simp [hni] at hnr
      | false => rfl

/-- Witness for C3 (amended): instantiated on a response whose single item
carries `needs_review: false`. -/
theorem C3_needs_review_passthrough_witness :
    ∃ item ∈ ({ glossary_items :=
                  some [{ term := some "ASAP", confidence := some "low",
                          needs_review := some false }] } :
          LLMGlossaryResult).glossary_items.getD [],
      item.needs_review = some false :=
  (C3_needs_review_passthrough {} []
      { glossary_items :=
          some [{ term := some "ASAP", confidence := some "low",
                  needs_review := some false }] }
      { type := "glossary", term := "ASAP", definition := "", term_type := "etc",
        confidence := "low", needs_review := false, alternative_definitions := [],
        keywords := [], domain_hints := [],
        source := some (slackGlossarySource {}) }).1
    (by decide) (by decide)

/-- C4 counterexample: the claim fails on the code.  With three Q&A items
whose service call for item 1 raises a timeout, `SlackExtractor.extract`
propagates the exception — there is no try/except in the orchestrator loop —
so the whole batch aborts and items 0 and 2 contribute nothing. -/
theorem C4_counterexample :
    SlackExtractor.extract
      [{ question := some "q", answer := some "a" },
       { question := some "q", answer := some "a" },
       { question := some "q", answer := some "a" }]
      (fun i => if i = 1 then .error (.serviceError "timeout")
                else .ok (some { is_valuable := some false }))
      (fun _ => .ok (some { insights :=
                              some [{ type := some "insight",
                                      content := some "c" }] }))
      = .error (.serviceError "timeout") := rfl

/-- C4 (amended): only failures of *parsing* the service's text are isolated
per item.  When every service call returns (its payload possibly being
unparseable, modelled as `none`) and no Q&A response is marked valuable
(building a valuable Q&A record raises AttributeError via the nonexistent
`SemanticType.QA`), the batch completes: every item contributes exactly its
insight records and the progress trace is complete.  An exception raised by
the service call itself is caught nowhere and aborts the whole batch. -/
theorem C4_parse_failures_isolated (raw : List QAThreadData)
    (qaResp : Nat → Except Exc (Option QnAResponse))
    (insResp : Nat → Except Exc (Option InsightsResponse))
    (hqa : ∀ j, ∃ v, qaResp j = .ok v ∧
      ∀ p, v = some p → p.is_valuable.getD false = false)
    (hins : ∀ j, ∃ v, insResp j = .ok v) :
    SlackExtractor.extract raw qaResp insResp =
      .ok (expectedInsightRecords insResp 0 raw,
           expectedProgressCalls raw.length 0 raw.length
             ++ [(raw.length, raw.length)]) := by
  unfold SlackExtractor.extract
  rw [slackExtractLoop_spec raw.length qaResp insResp hqa hins raw 0 [] []]
  simp

/-- Witness for C4 (amended): a one-item batch with an unparseable response
completes with no records and the full progress trace. -/
theorem C4_parse_failures_isolated_witness :
    SlackExtractor.extract [{}] (fun _ => .ok none) (fun _ => .ok none) =
      .ok ([], [(0, 1), (1, 1)]) := by
  have h := C4_parse_failures_isolated [{}] (fun _ => .ok none) (fun _ => .ok none)
    (fun _ => ⟨none, rfl, fun _ hp => Option.noConfusion hp⟩)
    (fun _ => ⟨none, rfl⟩)
  simpa [expectedInsightRecords, expectedProgressCalls,
    SlackExtractor.extractInsights] using h

/-- C5 counterexample: the claim fails on the code.  A structured response
with `is_valuable: true` but no "question" key makes
`SlackQnAPromptTemplate.process` raise KeyError (it reads
`result["question"]` by direct subscript), so the strategy is not total on
malformed responses. -/
theorem C5_counterexample :
    SlackQnAPromptTemplate.process { messages := [{}, {}] }
      { is_valuable := some true } = .error (.keyError "question") := rfl

/-- C5 (amended): `SlackQnAPromptTemplate.process` returns a list without
raising iff the thread has fewer than two messages, or the response's
`is_valuable` is absent or false (which covers the empty object from a
parse failure), or all three of "question", "answer" and "keywords" are
present; in every other case — `is_valuable` true with a needed key
missing — it raises KeyError. -/
theorem C5_totality_characterization (data : SlackThreadData)
    (result : QnAResponse) :
    (∃ l, SlackQnAPromptTemplate.process data result = .ok l) ↔
      (data.messages.length < 2 ∨ result.is_valuable.getD false = false ∨
        (result.question.isSome ∧ result.answer.isSome ∧ result.keywords.isSome)) := by
  unfold SlackQnAPromptTemplate.process
  by_cases h1 : data.messages.length < 2
  · simp [h1]
  · cases h2 : result.is_valuable.getD false
    · simp [h1, h2]
    · cases hq : result.question <;> cases ha : result.answer <;>
        cases hk : result.keywords <;> simp [h1, h2, hq, ha, hk]

/-- C6 counterexample: the claim fails on the code.  With one record of
confidence "medium" (reviewed at threshold "medium") and a service response
re-deriving the same term at confidence "low", the merge emits the
re-derived record: the term is present in input and output, the output
record is the re-derived one rather than the preserved original, and its
confidence is strictly LOWER than the original's — the merge only compares
re-derived items against the trusted subset, which is empty here. -/
theorem C6_counterexample :
    (enhance_low_confidence_terms
        [{ type := "glossary", term := "X", definition := "d",
           term_type := "etc", confidence := "medium", needs_review := false }]
        "medium"
        { glossary_items :=
            some [{ term := some "X", confidence := some "low" }] }).1.map
      (fun r => (r.term, r.confidence)) = [("X", "low")] ∧
    confidenceLevel "low" < confidenceLevel "medium" :=
  ⟨by decide, by decide⟩

/-- C6 (amended): the merge compares re-derived items only against the
trusted subset.  Trusted records are preserved positionally — the output
record standing where a trusted record stood is either that record
unchanged or a re-derived record with the same term and strictly higher
confidence level, so confidence never decreases for trusted terms — and
every output record is either a trusted input record or a re-derived one
(re-derived items with no match being appended as newly discovered).
Reviewed originals are not themselves retained: a re-derived item matching
only a reviewed original replaces it whatever its confidence, and a
reviewed original absent from the response is dropped. -/
theorem C6_merge_upgrades_trusted_only (items : List GlossaryRecord)
    (t : String) (resp : LLMGlossaryResult) :
    (highConfidenceItems items t).length ≤
        (enhance_low_confidence_terms items t resp).1.length ∧
    (∀ i (hi : i < (highConfidenceItems items t).length)
        (ho : i < (enhance_low_confidence_terms items t resp).1.length),
      recordUpgrade ((highConfidenceItems items t).get ⟨i, hi⟩)
        ((enhance_low_confidence_terms items t resp).1.get ⟨i, ho⟩)) ∧
    (∀ r ∈ (enhance_low_confidence_terms items t resp).1,
      r ∈ highConfidenceItems items t ∨
      r ∈ GlossaryEnhancementPromptTemplate.process
            (lowConfidenceItems items t) resp) := by
  by_cases hempty : (lowConfidenceItems items t).isEmpty
  · have hnil : lowConfidenceItems items t = [] := by
      simpa [List.isEmpty_iff] using hempty
    have hhigh : highConfidenceItems items t = items :=
      high_eq_self_of_low_empty items t hnil
    have hout : (enhance_low_confidence_terms items t resp).1 = items := by
      unfold enhance_low_confidence_terms
      simp [hempty]
    rw [hhigh, hout]
    refine ⟨le_refl _, fun i hi ho => ?_, fun r hr => Or.inl hr⟩
    exact recordUpgrade_refl _
  · have hout : (enhance_low_confidence_terms items t resp).1 =
        (GlossaryEnhancementPromptTemplate.process
          (lowConfidenceItems items t) resp).foldl mergeStep
          (highConfidenceItems items t) := by
      unfold enhance_low_confidence_terms
      simp [hempty]
    rw [hout]
    exact ⟨foldl_mergeStep_length _ _,
      fun i hi ho => foldl_mergeStep_get _ _ i hi ho,
      fun r hr => foldl_mergeStep_mem _ _ r hr⟩

/-- Witness for C6 (amended): on a trusted-only singleton every output
record comes from the trusted subset or the re-derived list. -/
theorem C6_merge_upgrades_trusted_only_witness :
    ({ type := "glossary", term := "Y", definition := "d", term_type := "etc",
       confidence := "high", needs_review := false } : GlossaryRecord) ∈
        highConfidenceItems
          [{ type := "glossary", term := "Y", definition := "d", term_type := "etc",
             confidence := "high", needs_review := false }] "medium" ∨
    ({ type := "glossary", term := "Y", definition := "d", term_type := "etc",
       confidence := "high", needs_review := false } : GlossaryRecord) ∈
        GlossaryEnhancementPromptTemplate.process
          (lowConfidenceItems
            [{ type := "glossary", term := "Y", definition := "d", term_type := "etc",
               confidence := "high", needs_review := false }] "medium") {} :=
  (C6_merge_upgrades_trusted_only
      [{ type := "glossary", term := "Y", definition := "d", term_type := "etc",
         confidence := "high", needs_review := false }] "medium" {}).2.2
    { type := "glossary", term := "Y", definition := "d", term_type := "etc",
      confidence := "high", needs_review := false }
    (by decide)

/-- C7: enhancement is the identity on trusted-only input.  If the threshold
is one of the three confidence levels and every record's confidence is a
level strictly above it under the ordinal ordering (with `needs_review`
false, so no record falls into the reviewed partition), then the
low-confidence filter is empty, the input list is returned unchanged, and
zero text-service calls are made. -/
theorem C7_identity_on_trusted (items : List GlossaryRecord) (t : String)
    (resp : LLMGlossaryResult)
    (ht : t = "low" ∨ t = "medium" ∨ t = "high")
    (h : ∀ x ∈ items,
      (x.confidence = "low" ∨ x.confidence = "medium" ∨ x.confidence = "high") ∧
      confidenceLevel t < confidenceLevel x.confidence ∧ x.needs_review = false) :
    enhance_low_confidence_terms items t resp = (items, 0) := by
  have hnil : lowConfidenceItems items t = [] := by
    rw [lowConfidenceItems, List.filter_eq_nil_iff]
    intro x hx
    obtain ⟨hconf, hlt, _⟩ := h x hx
    rcases ht with rfl | rfl | rfl <;> rcases hconf with hc | hc | hc <;>
      rw [hc] at hlt ⊢ <;>
      first
      | exact absurd hlt (by decide)
      | decide
  unfold enhance_low_confidence_terms
  simp [hnil]

/-- Witness for C7: a singleton high-confidence list with threshold "medium"
is returned unchanged with zero calls. -/
theorem C7_identity_on_trusted_witness :
    enhance_low_confidence_terms
      [{ type := "glossary", term := "Y", definition := "d", term_type := "etc",
         confidence := "high", needs_review := false }] "medium" {} =
      ([{ type := "glossary", term := "Y", definition := "d", term_type := "etc",
          confidence := "high", needs_review := false }], 0) :=
  C7_identity_on_trusted
    [{ type := "glossary", term := "Y", definition := "d", term_type := "etc",
       confidence := "high", needs_review := false }] "medium" {}
    (Or.inr (Or.inl rfl)) (by decide)

/-- C8 counterexample: the claim fails on the code.  `GlossaryExtractor`'s
extract ends its callback protocol with `(1, 1)`: on an empty thread batch
the single call is `(1, 1)` instead of the claimed `(0, 0)`, and on a
two-thread batch the final call is `(1, 1)` instead of `(2, 2)`. -/
theorem C8_counterexample :
    GlossaryExtractor.extractThreads [] (fun _ => .ok {}) = .ok ([], [(1, 1)]) ∧
    GlossaryExtractor.extractThreads [[], []] (fun _ => .ok {}) =
      .ok ([], [(0, 2), (1, 2), (1, 1)]) :=
  ⟨rfl, rfl⟩

/-- C8 (amended): when every service call returns normally,
`SlackExtractor.extract` (with no valuable Q&A response, which would raise)
follows the claimed protocol — `(i, total)` before each item, then one
final `(total, total)`, a single `(0, 0)` for the empty batch — but
`GlossaryExtractor.extract` ends with `(1, 1)` instead of
`(total, total)`, also on the empty batch. -/
theorem C8_progress_protocol :
    (∀ (raw : List QAThreadData)
        (qaResp : Nat → Except Exc (Option QnAResponse))
        (insResp : Nat → Except Exc (Option InsightsResponse)),
      (∀ j, ∃ v, qaResp j = .ok v ∧
        ∀ p, v = some p → p.is_valuable.getD false = false) →
      (∀ j, ∃ v, insResp j = .ok v) →
      ∃ records, SlackExtractor.extract raw qaResp insResp =
        .ok (records, expectedProgressCalls raw.length 0 raw.length
          ++ [(raw.length, raw.length)])) ∧
    (∀ (threads : List (List SlackMessage))
        (resp : Nat → Except Exc LLMGlossaryResult),
      (∀ j, ∃ v, resp j = .ok v) →
      ∃ records, GlossaryExtractor.extractThreads threads resp =
        .ok (records,
          expectedProgressCalls threads.length 0 threads.length ++ [(1, 1)])) := by
  constructor
  · intro raw qaResp insResp hqa hins
    refine ⟨expectedInsightRecords insResp 0 raw, ?_⟩
    unfold SlackExtractor.extract
    rw [slackExtractLoop_spec raw.length qaResp insResp hqa hins raw 0 [] []]
    simp
  · intro threads resp hresp
    refine ⟨expectedGlossaryRecords resp 0 threads, ?_⟩
    unfold GlossaryExtractor.extractThreads
    rw [glossaryExtractLoop_spec threads.length resp hresp threads 0 [] []]
    simp

/-- Witness for C8 (amended): on empty batches the Slack trace is exactly
`[(0, 0)]` and the glossary trace exactly `[(1, 1)]`. -/
theorem C8_progress_protocol_witness :
    (∃ records, SlackExtractor.extract ([] : List QAThreadData)
        (fun _ => .ok none) (fun _ => .ok none) = .ok (records, [(0, 0)])) ∧
    (∃ records, GlossaryExtractor.extractThreads ([] : List (List SlackMessage))
        (fun _ => .ok {}) = .ok (records, [(1, 1)])) :=
  ⟨C8_progress_protocol.1 [] (fun _ => .ok none) (fun _ => .ok none)
      (fun _ => ⟨none, rfl, fun _ hp => Option.noConfusion hp⟩)
      (fun _ => ⟨none, rfl⟩),
   C8_progress_protocol.2 [] (fun _ => .ok {}) (fun _ => ⟨{}, rfl⟩)⟩

/-- C9 counterexample: the claim fails on the code.  A service response item
without a "term" key yields a glossary record whose term is the empty
string, and the strategy emits it — no gate drops empty-term records on the
way to the store. -/
theorem C9_counterexample :
    (SlackGlossaryPromptTemplate.process {}
        { glossary_items := some [{ definition := some "d" }] }).map
      (fun r => r.term) = [""] :=
  rfl

/-- C9 (amended): there is no empty-term gate on the path to the store.  The
Slack glossary strategy emits exactly one record per response item, the
term defaulting to the empty string when absent, dropping nothing; and
`SQLiteStore.store` filters nothing either — it raises AttributeError on
every non-empty list (so no record at all, empty-term or not, is ever
persisted). -/
theorem C9_no_empty_term_gate :
    (∀ (data : SlackThreadData) (result : LLMGlossaryResult),
      (SlackGlossaryPromptTemplate.process data result).map (fun r => r.term) =
        (result.glossary_items.getD []).map (fun item => item.term.getD "")) ∧
    (∀ (r : StoreRecord) (rs : List StoreRecord),
      SQLiteStore.store (r :: rs) =
        .error (.attributeError "type object SemanticType has no attribute QA")) := by
  constructor
  · intro data result
    unfold SlackGlossaryPromptTemplate.process
    rw [List.map_map]
    rfl
  · intro r rs
    rfl

/-- C10: provenance preservation through enhancement.  Each re-derived
item's source equals the source of the FIRST original record whose term
matches the item's term, copied unchanged (no source when that record
carries none or when no original matches). -/
theorem C10_provenance_first_match (terms_data : List GlossaryRecord)
    (result : LLMGlossaryResult) (r : GlossaryRecord)
    (hr : r ∈ GlossaryEnhancementPromptTemplate.process terms_data result) :
    r.source = (terms_data.find? (fun o => o.term == r.term)).bind
      (fun o => o.source) := by
  unfold GlossaryEnhancementPromptTemplate.process at hr
  obtain ⟨item, hitem, rfl⟩ := List.mem_map.mp hr
  simpa using copySource_eq_find terms_data (item.term.getD "")

/-- Witness for C10: a re-derived item matching the single original copies
its source `some "s1"`. -/
theorem C10_provenance_first_match_witness :
    ({ type := "glossary", term := "X", definition := "", term_type := "etc",
       confidence := "low", needs_review := true, alternative_definitions := [],
       keywords := [], domain_hints := [],
       source := some "s1" } : GlossaryRecord).source =
      (([{ type := "glossary", term := "X", definition := "d", term_type := "etc",
           confidence := "low", needs_review := true,
           source := some "s1" }] : List GlossaryRecord).find?
        (fun o => o.term == "X")).bind (fun o => o.source) :=
  C10_provenance_first_match
    [{ type := "glossary", term := "X", definition := "d", term_type := "etc",
       confidence := "low", needs_review := true, source := some "s1" }]
    { glossary_items := some [{ term := some "X" }] }
    { type := "glossary", term := "X", definition := "", term_type := "etc",
      confidence := "low", needs_review := true, alternative_definitions := [],
      keywords := [], domain_hints := [], source := some "s1" }
    (by decide)

end SemanticCore
